import Mathlib

/-!
Shallow embedding of the exoplanet-app frontend (src/frontend/src/api.ts and
src/frontend/src/App.tsx). JS numbers that only ever hold integer-or-NaN
values (the window length) are modelled as `Option Int` with `none` playing
the role of NaN; other numeric values are modelled as rationals.
-/

namespace ExoplanetApp

/-- Mission union type, api.ts line 1. -/
inductive Mission where
  | Kepler
  | K2
  | TESS
  deriving DecidableEq

/-- Decision label union type, api.ts line 7. -/
inductive Decision where
  | planet_like
  | not_planet_like
  deriving DecidableEq

/-- A diagnostics value is a number or a string, api.ts line 8. -/
inductive DiagVal where
  | num (x : ℚ)
  | str (s : String)
  deriving DecidableEq

/-- Entry of the top_features array, api.ts line 9. -/
structure TopFeature where
  name : String
  value : Option ℚ
  impact : ℚ
  deriving DecidableEq

/-- PredictResult record, api.ts lines 2 to 11. Optional fields are `Option`. -/
structure PredictResult where
  target : String
  mission : Mission
  prob_planet : ℚ
  threshold : Option ℚ
  decision : Option Decision
  diagnostics : Option (List (String × DiagVal))
  top_features : Option (List TopFeature)
  notes : Option (List String)
  deriving DecidableEq

/-- Light-curve JSON shape returned by fetchLc, api.ts line 32. -/
structure LightCurve where
  time : List ℚ
  flux : List ℚ
  flat_time : List ℚ
  flat_flux : List ℚ
  deriving DecidableEq

/-- Uppercase hexadecimal digit, as produced by encodeURIComponent. -/
def hexUpper (n : Nat) : Char :=
  if n < 10 then Char.ofNat (48 + n) else Char.ofNat (55 + n)

/-- Percent-encoding of one byte. -/
def encodeByte (b : Nat) : String :=
  String.mk [Char.ofNat 37, hexUpper (b / 16 % 16), hexUpper (b % 16)]

/-- UTF-8 byte sequence of a character. -/
def utf8Bytes (c : Char) : List Nat :=
  let n := c.toNat
  if n < 128 then [n]
  else if n < 2048 then [192 + n / 64, 128 + n % 64]
  else if n < 65536 then [224 + n / 4096, 128 + n / 64 % 64, 128 + n % 64]
  else [240 + n / 262144, 128 + n / 4096 % 64, 128 + n / 64 % 64, 128 + n % 64]

/-- Characters left unescaped by JS encodeURIComponent. -/
def isUnescapedURI (c : Char) : Bool :=
  c.isAlphanum || c = Char.ofNat 45 || c = Char.ofNat 95 || c = Char.ofNat 46 ||
  c = Char.ofNat 33 || c = Char.ofNat 126 || c = Char.ofNat 42 || c = Char.ofNat 39 ||
  c = Char.ofNat 40 || c = Char.ofNat 41

/-- Model of the JS builtin encodeURIComponent. -/
def encodeURIComponent (s : String) : String :=
  String.join (s.toList.map fun c =>
    if isUnescapedURI c then String.mk [c] else String.join ((utf8Bytes c).map encodeByte))

/-- JS string truthiness: the empty string and an absent value are falsy. -/
def jsTruthyStr : Option String → Bool
  | none => false
  | some s => !(s == "")

/-- The author query-string fragment, the ternary on api.ts lines 14 and 28:
`author ? "&author=" + encodeURIComponent(author) : ""`. -/
def authorQuery : Option String → String
  | none => ""
  | some s => if s == "" then "" else "&author=" ++ encodeURIComponent s

/-- JS template stringification of an integer-or-NaN number. -/
def jsNumStr : Option Int → String
  | none => "NaN"
  | some n => toString n

/-- plotPngUrl, api.ts lines 13 to 16. The target and mission parameters are
declared but unused in the source (underscore names). -/
def plotPngUrl (_target : String) (_mission : Mission) (windowLen : Option Int)
    (author : Option String) : String :=
  "/api/plot-test?window_length=" ++ jsNumStr windowLen ++ authorQuery author

/-- An HTTP request as issued by the frontend. -/
structure HttpRequest where
  method : String
  url : String
  deriving DecidableEq

/-- The request built by fetchLc, api.ts lines 27 to 30: a GET of
`/api/lc-test?window_length=...` with the optional author fragment. The
target and mission parameters are declared but unused in the source. -/
def fetchLcRequest (_t : String) (_m : Mission) (windowLen : Option Int)
    (author : Option String) : HttpRequest :=
  { method := "GET"
    url := "/api/lc-test?window_length=" ++ jsNumStr windowLen ++ authorQuery author }

/-- Outcome of an awaited fetch: either the transport failed with a
description, or a response arrived with an ok flag, a body text, and (when it
parses) a JSON payload. -/
inductive FetchResult (α : Type) where
  | netError (desc : String)
  | response (ok : Bool) (bodyText : String) (json : α)

/-- Shared response handling of fetchLc (api.ts lines 30 to 32) and predict
(api.ts lines 36 to 42): a non-ok response throws an Error whose message is
the body text, a transport failure rejects with its description, otherwise the
parsed JSON is returned. -/
def fetchJson {α : Type} : FetchResult α → Except String α
  | FetchResult.netError desc => Except.error desc
  | FetchResult.response ok bodyText json =>
      if ok then Except.ok json else Except.error bodyText

/-- The controller state owned by App (App.tsx useState hooks, api.ts
rendition lines 61 to 89): query fields, threshold, mock flag, results,
error banner and the two loading flags. -/
structure AppState where
  target : String
  mission : Mission
  author : String
  windowLen : Option Int
  threshold : ℚ
  mock : Bool
  lc : Option LightCurve
  loadingLc : Bool
  error : String
  pred : Option PredictResult
  loadingPred : Bool
  deriving DecidableEq

/-- Value of a digit character under a radix, as JS parseInt accepts. -/
def digitValRadix (radix : Nat) (c : Char) : Option Nat :=
  let v : Option Nat :=
    if 48 ≤ c.toNat ∧ c.toNat ≤ 57 then some (c.toNat - 48)
    else if 97 ≤ c.toNat ∧ c.toNat ≤ 122 then some (c.toNat - 87)
    else if 65 ≤ c.toNat ∧ c.toNat ≤ 90 then some (c.toNat - 55)
    else none
  match v with
  | some d => if d < radix then some d else none
  | none => none

/-- Longest digit prefix under a radix; `none` when no digit was seen
(parseIntJS then yields NaN). -/
def parseDigits (radix : Nat) : List Char → Nat → Bool → Option Nat
  | [], acc, seen => if seen then some acc else none
  | c :: rest, acc, seen =>
      match digitValRadix radix c with
      | some v => parseDigits radix rest (acc * radix + v) true
      | none => if seen then some acc else none

/-- Body of parseInt without an explicit radix: a 0x or 0X prefix selects
radix 16, otherwise radix 10. -/
def parseBodyJS : List Char → Option Nat
  | c0 :: c1 :: rest =>
      if c0 = Char.ofNat 48 ∧ (c1 = Char.ofNat 120 ∨ c1 = Char.ofNat 88) then
        parseDigits 16 rest 0 false
      else
        parseDigits 10 (c0 :: c1 :: rest) 0 false
  | cs => parseDigits 10 cs 0 false

/-- JS whitespace skipped by parseInt. -/
def isJsSpace (c : Char) : Bool :=
  c == Char.ofNat 32 || c == Char.ofNat 9 || c == Char.ofNat 10 ||
  c == Char.ofNat 11 || c == Char.ofNat 12 || c == Char.ofNat 13

/-- Model of the JS builtin parseInt(s) with no radix argument: skip leading
whitespace, take an optional sign, then the longest digit prefix; `none`
models NaN. -/
def parseIntJS (s : String) : Option Int :=
  let cs := s.toList.dropWhile isJsSpace
  match cs with
  | c :: rest =>
      if c = Char.ofNat 45 then (parseBodyJS rest).map (fun n => -(n : Int))
      else if c = Char.ofNat 43 then (parseBodyJS rest).map (fun n => (n : Int))
      else (parseBodyJS cs).map (fun n => (n : Int))
  | [] => none

/-- The window-length onChange handler, api.ts line 143:
`setWindowLen(parseInt(e.target.value || "401"))`. An empty value is falsy,
so it is replaced by the string "401" before parsing. -/
def windowLenOnChange (v : String) : Option Int :=
  parseIntJS (if v == "" then "401" else v)

/-- The state transition performed by that handler. -/
def setWindowLenFromInput (s : AppState) (v : String) : AppState :=
  { s with windowLen := windowLenOnChange v }

/-- loadLc, api.ts lines 76 to 85, as a transition on the controller state.
The first component is the state after the synchronous prefix
(setLoadingLc(true); setError("")), the second the state after the awaited
fetch resolves: on success setLc(data), on a caught Error setError(message)
and setLc(null), and in both cases finally setLoadingLc(false). -/
def loadLc (s : AppState) (r : FetchResult LightCurve) : AppState × AppState :=
  let mid : AppState := { s with loadingLc := true, error := "" }
  let fin : AppState :=
    match fetchJson r with
    | Except.ok data => { mid with lc := some data, loadingLc := false }
    | Except.error msg => { mid with error := msg, lc := none, loadingLc := false }
  (mid, fin)

/-- The fixed mock PredictResult, api.ts lines 96 to 108. It reads only the
captured target and mission. -/
def mockPrediction (target : String) (mission : Mission) : PredictResult :=
  { target := target
    mission := mission
    prob_planet := 0.84
    threshold := none
    decision := some Decision.planet_like
    diagnostics := some [("snr", DiagVal.num 18.3), ("cdpp_ppm", DiagVal.num 65),
      ("odd_even_diff", DiagVal.num 0.01), ("secondary_snr", DiagVal.num 0.2),
      ("centroid_sigma", DiagVal.num 0.7)]
    top_features := some [
      { name := "depth_ppm", value := some 520, impact := 0.23 },
      { name := "duration_hr", value := some 3.1, impact := 0.17 },
      { name := "secondary_snr", value := some 0.2, impact := 0.10 },
      { name := "cdpp_ppm", value := some 65, impact := -0.12 }]
    notes := some ["No secondary at phase ~0.5", "Odd-even consistent"] }

/-- runPredict, api.ts lines 91 to 118, as a transition on the controller
state. The first component is the state after setLoadingPred(true) and
setError(""); the second is the final state: in mock mode setPred(fake) with
no fetch (the FetchResult argument is ignored), otherwise the awaited predict
call resolves as in loadLc, and finally setLoadingPred(false) on all paths. -/
def runPredict (s : AppState) (r : FetchResult PredictResult) : AppState × AppState :=
  let mid : AppState := { s with loadingPred := true, error := "" }
  let fin : AppState :=
    if s.mock then
      { mid with pred := some (mockPrediction s.target s.mission), loadingPred := false }
    else
      match fetchJson r with
      | Except.ok real => { mid with pred := some real, loadingPred := false }
      | Except.error msg => { mid with error := msg, pred := none, loadingPred := false }
  (mid, fin)

/-- The displayed decision label, App.tsx rendition api.ts line 120:
`(pred?.prob_planet ?? 0) >= threshold ? "planet_like" : "not_planet_like"`. -/
def decisionLabel (pred : Option PredictResult) (threshold : ℚ) : Decision :=
  if (match pred with | some p => p.prob_planet | none => (0 : ℚ)) ≥ threshold then
    Decision.planet_like
  else
    Decision.not_planet_like

/-- A concrete light curve used by witnesses. -/
def sampleLc : LightCurve :=
  { time := [0, 1, 2], flux := [1, 1, 2], flat_time := [0, 1, 2], flat_flux := [1, 1, 1] }

/-- A concrete controller state (the initial state of App.tsx with the mock
flag turned off), used by witnesses. -/
def sampleState : AppState :=
  { target := "Kepler-10"
    mission := Mission.Kepler
    author := ""
    windowLen := some 401
    threshold := 0.5
    mock := false
    lc := none
    loadingLc := false
    error := ""
    pred := none
    loadingPred := false }

/-- A concrete mock-mode state, used by witnesses. -/
def sampleMockState : AppState :=
  { sampleState with mock := true, target := "K2-18", mission := Mission.K2 }

/-- A second mock-mode state with the same target and mission but different
author, threshold, prior error and prior prediction, used by witnesses. -/
def sampleMockState2 : AppState :=
  { sampleMockState with
    author := "SPOC"
    threshold := 0.9
    error := "old failure"
    pred := some (mockPrediction "other" Mission.TESS) }

/-- A concrete prediction payload used by witnesses. -/
def samplePred : PredictResult := mockPrediction "Kepler-10" Mission.Kepler

end ExoplanetApp

namespace ExoplanetApp

/-- Claim C1: for every prediction result and every threshold, the displayed
decision label is planet_like iff prob_planet is at least the threshold
(boundary inclusive), and it is unchanged under replacing the decision field
of the result, so the local recomputation takes precedence over any embedded
decision field. -/
theorem decision_label_local_recompute (p : PredictResult) (t : ℚ) (d : Option Decision) :
    (decisionLabel (some p) t = Decision.planet_like ↔ p.prob_planet ≥ t) ∧
    decisionLabel (some { p with decision := d }) t = decisionLabel (some p) t := by
  constructor
  · by_cases h : p.prob_planet ≥ t <;> simp [decisionLabel, h]
  · rfl

/-- Claim C2 counterexample: the plot URL does not encode the mission. Two
calls differing only in the mission (Kepler versus TESS) produce the same URL
string, which is exactly /api/plot-test?window_length=401 and carries no
mission parameter, so the query parameters cannot encode the mission. -/
theorem plot_url_mission_not_encoded :
    plotPngUrl "Kepler-10" Mission.Kepler (some 401) none
      = plotPngUrl "Kepler-10" Mission.TESS (some 401) none
    ∧ Mission.Kepler ≠ Mission.TESS
    ∧ plotPngUrl "Kepler-10" Mission.Kepler (some 401) none
        = "/api/plot-test?window_length=401" :=
  ⟨rfl, by decide, by decide⟩

/-- Claim C2 amended: the plot URL encodes the window length and, when the
author is present and non-empty, the author, as query parameters; the mission
and the target are not encoded (the URL is independent of both). Changing the
window length or adding an author changes the URL. -/
theorem plot_url_amended_format (t : String) (m : Mission) (wl : Option Int)
    (a : Option String) :
    plotPngUrl t m wl a = "/api/plot-test?window_length=" ++ jsNumStr wl ++ authorQuery a
    ∧ plotPngUrl t m wl a = plotPngUrl "" Mission.Kepler wl a
    ∧ plotPngUrl "x" Mission.Kepler (some 401) none
        ≠ plotPngUrl "x" Mission.Kepler (some 451) none
    ∧ plotPngUrl "x" Mission.Kepler (some 401) none
        ≠ plotPngUrl "x" Mission.Kepler (some 401) (some "SPOC") :=
  ⟨rfl, rfl, by decide, by decide⟩

/-- Claim C3 counterexample: the window-length state is not clamped to the
range 51 to 5001 (the entry 6001 is stored as 6001), and a malformed
non-numeric entry (abc) yields NaN, not the default 401. -/
theorem window_length_not_clamped :
    windowLenOnChange "6001" = some 6001 ∧ ¬((6001 : Int) ≤ 5001) ∧
    windowLenOnChange "abc" ≠ some 401 :=
  ⟨by decide, by decide, by decide⟩

/-- Claim C3 amended: the window-length state is parseInt of the entry (of
the string 401 when the entry is empty): every value parseInt produces is
stored unclamped, an empty entry yields the default 401, and a non-numeric
entry yields NaN rather than 401. -/
theorem window_length_parse_unclamped (v : String) (n : Int)
    (h : parseIntJS v = some n) :
    windowLenOnChange v = some n ∧ windowLenOnChange "" = some 401 ∧
    windowLenOnChange "abc" = none := by
  refine ⟨?_, by decide, by decide⟩
  by_cases hv : v == ""
  · have hv2 : v = "" := by simpa using hv
    rw [hv2] at h
    have he : parseIntJS "" = none := rfl
    rw [he] at h
    exact Option.noConfusion h
  · simp [windowLenOnChange, hv, h]

/-- Witness for the amended claim C3, at the entry 6001. -/
theorem window_length_parse_unclamped_witness :
    windowLenOnChange "6001" = some 6001 ∧ windowLenOnChange "" = some 401 ∧
    windowLenOnChange "abc" = none :=
  window_length_parse_unclamped "6001" 6001 (by decide)

/-- Claim C4: for the light-curve load and the non-mock prediction, a
transport failure or a non-ok response clears the corresponding result to
none and sets the error message to the failure description or the response
body text, while a success stores the parsed result and leaves the error
message cleared. -/
theorem fetch_failure_clears_result (s : AppState) (d body : String)
    (lcData : LightCurve) (predData : PredictResult) (hm : s.mock = false) :
    ((loadLc s (FetchResult.netError d)).2.lc = none ∧
      (loadLc s (FetchResult.netError d)).2.error = d) ∧
    ((loadLc s (FetchResult.response false body lcData)).2.lc = none ∧
      (loadLc s (FetchResult.response false body lcData)).2.error = body) ∧
    ((loadLc s (FetchResult.response true body lcData)).2.lc = some lcData ∧
      (loadLc s (FetchResult.response true body lcData)).2.error = "") ∧
    ((runPredict s (FetchResult.netError d)).2.pred = none ∧
      (runPredict s (FetchResult.netError d)).2.error = d) ∧
    ((runPredict s (FetchResult.response false body predData)).2.pred = none ∧
      (runPredict s (FetchResult.response false body predData)).2.error = body) ∧
    ((runPredict s (FetchResult.response true body predData)).2.pred = some predData ∧
      (runPredict s (FetchResult.response true body predData)).2.error = "") := by
  simp [loadLc, runPredict, fetchJson, hm]

/-- Witness for claim C4, at the initial controller state with the mock flag
off, a transport failure description and a response body text. -/
theorem fetch_failure_clears_result_witness :
    ((loadLc sampleState (FetchResult.netError "connection reset")).2.lc = none ∧
      (loadLc sampleState (FetchResult.netError "connection reset")).2.error
        = "connection reset") ∧
    ((loadLc sampleState (FetchResult.response false "404 target not found" sampleLc)).2.lc
        = none ∧
      (loadLc sampleState (FetchResult.response false "404 target not found" sampleLc)).2.error
        = "404 target not found") ∧
    ((loadLc sampleState (FetchResult.response true "404 target not found" sampleLc)).2.lc
        = some sampleLc ∧
      (loadLc sampleState (FetchResult.response true "404 target not found" sampleLc)).2.error
        = "") ∧
    ((runPredict sampleState (FetchResult.netError "connection reset")).2.pred = none ∧
      (runPredict sampleState (FetchResult.netError "connection reset")).2.error
        = "connection reset") ∧
    ((runPredict sampleState
        (FetchResult.response false "404 target not found" samplePred)).2.pred = none ∧
      (runPredict sampleState
        (FetchResult.response false "404 target not found" samplePred)).2.error
        = "404 target not found") ∧
    ((runPredict sampleState
        (FetchResult.response true "404 target not found" samplePred)).2.pred
        = some samplePred ∧
      (runPredict sampleState
        (FetchResult.response true "404 target not found" samplePred)).2.error = "") :=
  fetch_failure_clears_result sampleState "connection reset" "404 target not found"
    sampleLc samplePred rfl

/-- Claim C5: for the light-curve load and for the prediction (mock flag on
or off alike), the per-tab loading flag is true in the intermediate state
between request start and resolution, and is false in the final state on
every completion path, so it never remains stuck after the operation
resolves. -/
theorem loading_flag_lifecycle (s : AppState) (r1 : FetchResult LightCurve)
    (r2 : FetchResult PredictResult) :
    (loadLc s r1).1.loadingLc = true ∧ (loadLc s r1).2.loadingLc = false ∧
    (runPredict s r2).1.loadingPred = true ∧ (runPredict s r2).2.loadingPred = false := by
  refine ⟨rfl, ?_, rfl, ?_⟩
  · cases r1 with
    | netError d => rfl
    | response ok body json => cases ok <;> rfl
  · by_cases h : s.mock
    · simp [runPredict, h]
    · cases r2 with
      | netError d => simp [runPredict, fetchJson, h]
      | response ok body json => cases ok <;> simp [runPredict, fetchJson, h]

/-- Claim C6 counterexample: the interactive light-curve request does not
carry the mission. Two calls differing only in the mission produce identical
requests, whose URL is exactly /api/lc-test?window_length=401 with no mission
query parameter. -/
theorem lc_request_mission_not_carried :
    fetchLcRequest "TIC 307210830" Mission.TESS (some 401) none
      = fetchLcRequest "TIC 307210830" Mission.Kepler (some 401) none
    ∧ Mission.TESS ≠ Mission.Kepler
    ∧ (fetchLcRequest "TIC 307210830" Mission.TESS (some 401) none).url
        = "/api/lc-test?window_length=401" :=
  ⟨rfl, by decide, by decide⟩

/-- Claim C6 amended: the interactive light-curve request is a GET of
/api/lc-test carrying window_length and, when present and non-empty, author
as query parameters; the mission and the target are not included in the
request (the production /api/lc/target form exists only as commented-out
code). -/
theorem lc_request_amended_format (t : String) (m : Mission) (wl : Option Int)
    (a : Option String) :
    (fetchLcRequest t m wl a).method = "GET"
    ∧ (fetchLcRequest t m wl a).url
        = "/api/lc-test?window_length=" ++ jsNumStr wl ++ authorQuery a
    ∧ fetchLcRequest t m wl a = fetchLcRequest "" Mission.Kepler wl a :=
  ⟨rfl, rfl, rfl⟩

/-- Claim C7: the plot URL is a pure deterministic function of mission,
window length and author; any two targets give the identical URL string; an
absent author yields a URL with no author parameter at all, as does the empty
author string; and the documented example for Kepler, window length 401 and
no author is exactly /api/plot-test?window_length=401. -/
theorem plot_url_pure_and_author_omitted (t1 t2 : String) (m : Mission)
    (wl : Option Int) (a : Option String) :
    plotPngUrl t1 m wl a = plotPngUrl t2 m wl a
    ∧ plotPngUrl t1 m wl none = "/api/plot-test?window_length=" ++ jsNumStr wl
    ∧ plotPngUrl t1 m wl (some "") = plotPngUrl t1 m wl none
    ∧ plotPngUrl "Kepler-10" Mission.Kepler (some 401) none
        = "/api/plot-test?window_length=401" := by
  refine ⟨rfl, ?_, rfl, by decide⟩
  simp [plotPngUrl, authorQuery]

/-- Claim C8: mock-mode prediction is fully deterministic. Two runPredict
invocations in mock mode on states sharing the same target and mission, with
arbitrary other state fields and arbitrary fetch outcomes, store identical
PredictResult values. -/
theorem mock_prediction_deterministic (s1 s2 : AppState)
    (r1 r2 : FetchResult PredictResult) (h1 : s1.mock = true) (h2 : s2.mock = true)
    (ht : s1.target = s2.target) (hm : s1.mission = s2.mission) :
    (runPredict s1 r1).2.pred = (runPredict s2 r2).2.pred := by
  simp [runPredict, h1, h2, ht, hm]

/-- Witness for claim C8: two concrete mock-mode states with equal target and
mission but different author, threshold, prior error and prior prediction
produce the same stored prediction. -/
theorem mock_prediction_deterministic_witness :
    (runPredict sampleMockState (FetchResult.netError "boom")).2.pred
      = (runPredict sampleMockState2 (FetchResult.response true "" samplePred)).2.pred :=
  mock_prediction_deterministic sampleMockState sampleMockState2
    (FetchResult.netError "boom") (FetchResult.response true "" samplePred)
    rfl rfl rfl rfl

/-- Claim C9: in mock mode with target K2-18 and mission K2 the produced
PredictionResult has prob_planet 0.84, and the locally recomputed decision at
threshold 0.5 is planet_like. -/
theorem mock_example_k2_18 :
    (mockPrediction "K2-18" Mission.K2).prob_planet = 0.84 ∧
    decisionLabel (some (mockPrediction "K2-18" Mission.K2)) 0.5
      = Decision.planet_like := by
  constructor
  · rfl
  · simp only [decisionLabel, mockPrediction]
    norm_num

/-- Claim C10: in mock mode runPredict cannot fail: its final state is
independent of the fetch outcome (no network call is consulted), the error
message is cleared at the start and still clear at the end, and the stored
prediction is the non-null mock result. -/
theorem mock_predict_never_fails (s : AppState) (r1 r2 : FetchResult PredictResult)
    (h : s.mock = true) :
    (runPredict s r1).2 = (runPredict s r2).2 ∧
    (runPredict s r1).1.error = "" ∧
    (runPredict s r1).2.error = "" ∧
    (runPredict s r1).2.pred = some (mockPrediction s.target s.mission) := by
  simp [runPredict, h]

/-- Witness for claim C10, at a concrete mock-mode state with a transport
failure and a non-ok response as the two (ignored) fetch outcomes. -/
theorem mock_predict_never_fails_witness :
    (runPredict sampleMockState (FetchResult.netError "boom")).2
      = (runPredict sampleMockState (FetchResult.response false "oops" samplePred)).2 ∧
    (runPredict sampleMockState (FetchResult.netError "boom")).1.error = "" ∧
    (runPredict sampleMockState (FetchResult.netError "boom")).2.error = "" ∧
    (runPredict sampleMockState (FetchResult.netError "boom")).2.pred
      = some (mockPrediction sampleMockState.target sampleMockState.mission) :=
  mock_predict_never_fails sampleMockState (FetchResult.netError "boom")
    (FetchResult.response false "oops" samplePred) rfl

end ExoplanetApp
